import Mathlib

/-!
# u2ftoken: the FIDO U2F raw message protocol engine

A shallow embedding of `u2ftoken/token.go`, `constant.go`, `errors.go` and
`types.go`.

Conventions of the embedding.

* A Go `byte` is a `Fin 256`; a `[]byte` is a `List Byte`.  Wider unsigned
  integers (`uint16`, `uint32`, `int`) are `Nat`, with the truncations of the
  source written out as `% 2 ^ w`.
* A Go `error` is a value of `Error`: `errors.New msg` or
  `fmt.Errorf format args`.  The `nil` error is `none`.
* A function returning `(T, error)` returns a pair `Option T × Option Error`
  when `T` is a pointer or a slice (`nil` is `none`).
* The device behind the `Device` interface is stateful: its `Message` takes
  and returns an explicit state.
* Operations that may panic at run time (slicing and indexing out of range)
  return `Option`; `none` is the panic.
-/

namespace u2ftoken

/-- A Go `byte`. -/
abbrev Byte := Fin 256

/-- The Go conversion `uint8(n)` of a non-negative `int`. -/
def uint8 (n : Nat) : Byte := ⟨n % 256, Nat.mod_lt n (by decide)⟩

/-- A Go `error` value, by the call that builds it. -/
inductive Error where
  /-- The value of `errors.New(msg)`. -/
  | New (msg : String)
  /-- The value of `fmt.Errorf(format, args...)`; every argument in this package is an
  unsigned integer printed with `%d`. -/
  | Errorf (format : String) (args : List Nat)
  deriving DecidableEq, Repr

/-- A Go `string`: a sequence of bytes. -/
structure GoString where
  bytes : List Byte
  deriving DecidableEq, Repr

/-- The Go conversion `string(b)` of a byte slice. -/
def string (b : List Byte) : GoString := ⟨b⟩

/-! ## constant.go -/

def CmdRegister : Nat := 1
def CmdAuthenticate : Nat := 2
def CmdVersion : Nat := 3

def StatusNoError : Nat := 0x9000
def StatusWrongLength : Nat := 0x6700
def StatusInvalidData : Nat := 0x6984
def StatusConditionsNotSatisfied : Nat := 0x6985
def StatusWrongData : Nat := 0x6a80
def StatusInsNotSupported : Nat := 0x6d00

def tupRequired : Nat := 1
def tupConsume : Nat := 2
def tupTestOnly : Nat := 4

def authEnforce : Nat := tupRequired ||| tupConsume
def authCheckOnly : Nat := tupRequired ||| tupConsume ||| tupTestOnly

/-! ## errors.go -/

def ErrPresenceRequired : Error := Error.New "u2ftoken: user presence required"

def ErrUnknownKeyHandle : Error := Error.New "u2ftoken: unknown key handle"

/-! ## types.go -/

structure RegisterRequest where
  Challenge : List Byte
  Application : List Byte
  deriving DecidableEq, Repr

structure AuthenticateRequest where
  Challenge : List Byte
  Application : List Byte
  KeyHandle : List Byte
  deriving DecidableEq, Repr

structure AuthenticateResponse where
  /-- A `uint32`. -/
  Counter : Nat
  Signature : List Byte
  RawResponse : List Byte
  deriving DecidableEq, Repr

structure Request where
  Command : Byte
  Param1 : Byte
  Param2 : Byte
  Data : List Byte
  deriving DecidableEq, Repr

structure Response where
  Data : List Byte
  /-- A `uint16`. -/
  Status : Nat
  deriving DecidableEq, Repr

/-! ## Slices and `encoding/binary` -/

/-- The Go slice expression `b[i:]`; panics when `i` exceeds the length. -/
def sliceFrom (b : List Byte) (i : Nat) : Option (List Byte) :=
  if i ≤ b.length then some (b.drop i) else none

/-- The Go slice expression `b[:j]` on a slice whose capacity is its length; panics when
`j` exceeds it. -/
def sliceTo (b : List Byte) (j : Nat) : Option (List Byte) :=
  if j ≤ b.length then some (b.take j) else none

/-- The library function `binary.BigEndian.Uint16`:
`uint16(b[1]) | uint16(b[0])<<8`, panicking on fewer than two bytes. -/
def BigEndian.Uint16 (b : List Byte) : Option Nat :=
  match b with
  | b0 :: b1 :: _ => some (b1.val ||| (b0.val <<< 8) % 2 ^ 16)
  | _ => none

/-- The library function `binary.BigEndian.Uint32`:
`uint32(b[3]) | uint32(b[2])<<8 | uint32(b[1])<<16 | uint32(b[0])<<24`, panicking on
fewer than four bytes. -/
def BigEndian.Uint32 (b : List Byte) : Option Nat :=
  match b with
  | b0 :: b1 :: b2 :: b3 :: _ =>
    some (b3.val ||| (b2.val <<< 8) % 2 ^ 32 ||| (b1.val <<< 16) % 2 ^ 32
      ||| (b0.val <<< 24) % 2 ^ 32)
  | _ => none

/-! ## token.go -/

/-- The interface `Device`: `Message(data []byte) ([]byte, error)`, over a device state
of type `σ`. -/
structure Device (σ : Type) where
  Message : List Byte → σ → (List Byte × Option Error) × σ

structure Token (σ : Type) where
  d : Device σ

def NewToken {σ : Type} (d : Device σ) : Token σ := ⟨d⟩

/-- The buffer `buf` of `Token.Message` when it is handed to the device
(token.go, lines 151 to 158). -/
def Token.Message.buf (req : Request) : List Byte :=
  let buf : List Byte := List.replicate 7 0
  let buf := buf.set 1 req.Command
  let buf := buf.set 2 req.Param1
  let buf := buf.set 3 req.Param2
  let buf := buf.set 4 (uint8 (req.Data.length >>> 16))
  let buf := buf.set 5 (uint8 (req.Data.length >>> 8))
  let buf := buf.set 6 (uint8 req.Data.length)
  buf ++ req.Data

/-- The method `Token.Message`. -/
def Token.Message {σ : Type} (t : Token σ) (req : Request) (s : σ) :
    Option ((Option Response × Option Error) × σ) :=
  let buf := Token.Message.buf req
  match t.d.Message buf s with
  | ((_, some err), s') => some ((none, some err), s')
  | ((data, none), s') =>
    if data.length < 2 then
      some ((none, some (Error.Errorf "u2ftoken: response is too short, got %d bytes"
        [data.length])), s')
    else
      match sliceTo data (data.length - 2), sliceFrom data (data.length - 2) with
      | some front, some back =>
        match BigEndian.Uint16 back with
        | some status => some ((some { Data := front, Status := status }, none), s')
        | none => none
      | _, _ => none

/-- The `Request` literal that `Token.Register` passes to `Token.Message`
(token.go, lines 40 to 43). -/
def Token.Register.request (req : RegisterRequest) : Request :=
  { Param1 := uint8 authEnforce, Command := uint8 CmdRegister, Param2 := 0,
    Data := req.Challenge ++ req.Application }

/-- The method `Token.Register`. -/
def Token.Register {σ : Type} (t : Token σ) (req : RegisterRequest) (s : σ) :
    Option ((Option (List Byte) × Option Error) × σ) :=
  if req.Challenge.length ≠ 32 then
    some ((none, some (Error.Errorf "u2ftoken: Challenge must be exactly 32 bytes" [])), s)
  else if req.Application.length ≠ 32 then
    some ((none, some (Error.Errorf "u2ftoken: Application must be exactly 32 bytes" [])), s)
  else
    match t.Message (Token.Register.request req) s with
    | none => none
    | some ((_, some err), s') => some ((none, some err), s')
    | some ((none, none), _) => none
    | some ((some res, none), s') =>
      if res.Status = StatusNoError then
        some ((some res.Data, none), s')
      else if res.Status = StatusConditionsNotSatisfied then
        some ((none, some ErrPresenceRequired), s')
      else
        some ((none, some (Error.Errorf "u2ftoken: unexpected error %d during registration"
          [res.Status])), s')

/-- The function `encodeAuthenticateRequest`. -/
def encodeAuthenticateRequest (req : AuthenticateRequest) : Option (List Byte) × Option Error :=
  if req.Challenge.length ≠ 32 then
    (none, some (Error.Errorf "u2ftoken: Challenge must be exactly 32 bytes" []))
  else if req.Application.length ≠ 32 then
    (none, some (Error.Errorf "u2ftoken: Application must be exactly 32 bytes" []))
  else if req.KeyHandle.length > 256 then
    (none, some (Error.Errorf "u2ftoken: KeyHandle is too long" []))
  else
    let buf : List Byte := []
    let buf := buf ++ req.Challenge
    let buf := buf ++ req.Application
    let buf := buf ++ [uint8 req.KeyHandle.length]
    let buf := buf ++ req.KeyHandle
    (some buf, none)

/-- The `Request` literal that `Token.Authenticate` passes to `Token.Message`
(token.go, line 88). -/
def Token.Authenticate.request (buf : List Byte) : Request :=
  { Command := uint8 CmdAuthenticate, Param1 := uint8 authEnforce, Param2 := 0, Data := buf }

/-- The method `Token.Authenticate`. -/
def Token.Authenticate {σ : Type} (t : Token σ) (req : AuthenticateRequest) (s : σ) :
    Option ((Option AuthenticateResponse × Option Error) × σ) :=
  match encodeAuthenticateRequest req with
  | (_, some err) => some ((none, some err), s)
  | (none, none) => none
  | (some buf, none) =>
    match t.Message (Token.Authenticate.request buf) s with
    | none => none
    | some ((_, some err), s') => some ((none, some err), s')
    | some ((none, none), _) => none
    | some ((some res, none), s') =>
      if res.Status ≠ StatusNoError then
        if res.Status = StatusConditionsNotSatisfied then
          some ((none, some ErrPresenceRequired), s')
        else
          some ((none, some (Error.Errorf "u2ftoken: unexpected error %d during authentication"
            [res.Status])), s')
      else if res.Data.length < 6 then
        some ((none, some (Error.Errorf
          "u2ftoken: authenticate response is too short, got %d bytes" [res.Data.length])), s')
      else
        match (sliceFrom res.Data 1).bind BigEndian.Uint32, sliceFrom res.Data 5 with
        | some counter, some signature =>
          some ((some { Counter := counter, Signature := signature, RawResponse := res.Data },
            none), s')
        | _, _ => none

/-- The `Request` literal that `Token.CheckAuthenticate` passes to `Token.Message`
(token.go, line 120). -/
def Token.CheckAuthenticate.request (buf : List Byte) : Request :=
  { Command := uint8 CmdAuthenticate, Param1 := uint8 authCheckOnly, Param2 := 0, Data := buf }

/-- The method `Token.CheckAuthenticate`. -/
def Token.CheckAuthenticate {σ : Type} (t : Token σ) (req : AuthenticateRequest) (s : σ) :
    Option (Option Error × σ) :=
  match encodeAuthenticateRequest req with
  | (_, some err) => some (some err, s)
  | (none, none) => none
  | (some buf, none) =>
    match t.Message (Token.CheckAuthenticate.request buf) s with
    | none => none
    | some ((_, some err), s') => some (some err, s')
    | some ((none, none), _) => none
    | some ((some res, none), s') =>
      if res.Status = StatusConditionsNotSatisfied then
        some (none, s')
      else if res.Status = StatusWrongData then
        some (some ErrUnknownKeyHandle, s')
      else
        some (some (Error.Errorf "u2ftoken: unexpected error %d during auth check"
          [res.Status]), s')

/-- The `Request` literal that `Token.Version` passes to `Token.Message`
(token.go, line 137). -/
def Token.Version.request : Request :=
  { Command := uint8 CmdVersion, Param1 := 0, Param2 := 0, Data := [] }

/-- The method `Token.Version`. -/
def Token.Version {σ : Type} (t : Token σ) (s : σ) :
    Option ((GoString × Option Error) × σ) :=
  match t.Message Token.Version.request s with
  | none => none
  | some ((_, some err), s') => some ((string [], some err), s')
  | some ((none, none), _) => none
  | some ((some res, none), s') =>
    if res.Status ≠ StatusNoError then
      some ((string [], some (Error.Errorf
        "u2ftoken: unexpected error %d during version request" [res.Status])), s')
    else
      some ((string res.Data, none), s')

/-! ## Observing the transport -/

/-- A device that behaves as `d` and appends every frame it is sent to a log kept beside
the state of `d`: one entry per invocation of `Message`. -/
def Device.recording {σ : Type} (d : Device σ) : Device (σ × List (List Byte)) where
  Message := fun data st =>
    ((d.Message data st.1).1, ((d.Message data st.1).2, st.2 ++ [data]))

/-- A stateless device that answers every frame with the same reply. -/
def Device.stub (reply : List Byte × Option Error) : Device Unit where
  Message := fun _ st => (reply, st)

/-! ## Reading frames and counters back -/

/-- The library function `binary.BigEndian.AppendUint32`: `b` followed by
`byte(v>>24), byte(v>>16), byte(v>>8), byte(v)`. -/
def BigEndian.AppendUint32 (b : List Byte) (v : Nat) : List Byte :=
  b ++ [uint8 (v >>> 24), uint8 (v >>> 16), uint8 (v >>> 8), uint8 v]

/-- A request frame read back field by field. -/
structure ParsedFrame where
  cls : Byte
  cmd : Byte
  p1 : Byte
  p2 : Byte
  len : Nat
  payload : List Byte
  rest : List Byte
  deriving DecidableEq, Repr

/-- The reader of the specification's round trip, for a frame of the form
`[class, cmd, p1, p2, len3, payload]`: four bytes, a three-byte big-endian length `L`, the
next `L` bytes as the payload, and the bytes left over.  It fails on a frame that is
shorter than its fields. -/
def parseFrame (frame : List Byte) : Option ParsedFrame :=
  match frame with
  | cls :: cmd :: p1 :: p2 :: l2 :: l1 :: l0 :: tail =>
    let L := 65536 * l2.val + 256 * l1.val + l0.val
    if L ≤ tail.length then
      some { cls := cls, cmd := cmd, p1 := p1, p2 := p2, len := L,
             payload := tail.take L, rest := tail.drop L }
    else none
  | _ => none

/-! ## Lemmas on the byte order and on `Token.Message` -/

theorem Uint16_eq (b0 b1 : Byte) (rest : List Byte) :
    BigEndian.Uint16 (b0 :: b1 :: rest) = some (256 * b0.val + b1.val) := by
  have h0 := b0.isLt
  have h1 := b1.isLt
  simp only [BigEndian.Uint16, Nat.shiftLeft_eq]
  rw [Nat.mod_eq_of_lt (by omega), Nat.lor_comm, Nat.mul_comm,
    ← Nat.mul_add_lt_is_or (i := 8) (by omega)]

theorem Uint32_eq (b0 b1 b2 b3 : Byte) (rest : List Byte) :
    BigEndian.Uint32 (b0 :: b1 :: b2 :: b3 :: rest)
      = some (2 ^ 24 * b0.val + 2 ^ 16 * b1.val + 2 ^ 8 * b2.val + b3.val) := by
  have h0 := b0.isLt
  have h1 := b1.isLt
  have h2 := b2.isLt
  have h3 := b3.isLt
  simp only [BigEndian.Uint32, Nat.shiftLeft_eq]
  rw [Nat.mod_eq_of_lt (by omega), Nat.mod_eq_of_lt (by omega), Nat.mod_eq_of_lt (by omega)]
  rw [Nat.lor_comm b3.val, Nat.mul_comm b2.val, ← Nat.mul_add_lt_is_or (i := 8) (by omega),
    Nat.lor_comm _ (b1.val * 2 ^ 16), Nat.mul_comm b1.val,
    ← Nat.mul_add_lt_is_or (i := 16) (by omega),
    Nat.lor_comm _ (b0.val * 2 ^ 24), Nat.mul_comm b0.val,
    ← Nat.mul_add_lt_is_or (i := 24) (by omega)]
  congr 1
  omega

/-- Every reply of at least two bytes is its front followed by its last two bytes. -/
theorem reply_split (raw : List Byte) (h : 2 ≤ raw.length) :
    raw = raw.take (raw.length - 2)
      ++ [raw.get ⟨raw.length - 2, by omega⟩, raw.get ⟨raw.length - 1, by omega⟩] := by
  conv_lhs => rw [← List.take_append_drop (raw.length - 2) raw]
  congr 1
  apply List.ext_getElem
  · simp; omega
  · intro i h1 h2
    simp at h2
    have : i = 0 ∨ i = 1 := by omega
    rcases this with rfl | rfl
    · simp
    · simp
      congr 1
      omega

theorem Message_transport_error {σ : Type} (t : Token σ) (req : Request) (s s' : σ)
    (data : List Byte) (err : Error)
    (h : t.d.Message (Token.Message.buf req) s = ((data, some err), s')) :
    t.Message req s = some ((none, some err), s') := by
  simp [Token.Message, h]

theorem Message_short {σ : Type} (t : Token σ) (req : Request) (s s' : σ)
    (raw : List Byte) (h : t.d.Message (Token.Message.buf req) s = ((raw, none), s'))
    (hlen : raw.length < 2) :
    t.Message req s = some ((none, some (Error.Errorf
      "u2ftoken: response is too short, got %d bytes" [raw.length])), s') := by
  simp [Token.Message, h, hlen]

theorem Message_reply {σ : Type} (t : Token σ) (req : Request) (s s' : σ)
    (D : List Byte) (hi lo : Byte)
    (h : t.d.Message (Token.Message.buf req) s = ((D ++ [hi, lo], none), s')) :
    t.Message req s
      = some ((some { Data := D, Status := 256 * hi.val + lo.val }, none), s') := by
  simp [Token.Message, h, sliceTo, sliceFrom, Uint16_eq]

/-- The response to a reply whose last two bytes spell the status `st`. -/
theorem Message_status {σ : Type} (t : Token σ) (req : Request) (s s' : σ)
    (D : List Byte) (hi lo : Byte) (st : Nat) (hst : 256 * hi.val + lo.val = st)
    (h : t.d.Message (Token.Message.buf req) s = ((D ++ [hi, lo], none), s')) :
    t.Message req s = some ((some { Data := D, Status := st }, none), s') := by
  rw [← hst]
  exact Message_reply t req s s' D hi lo h

/-- The method `Token.Message` never panics, and leaves the device in the state the one
call of the device's `Message` produced. -/
theorem Message_total {σ : Type} (t : Token σ) (req : Request) (s : σ) :
    ∃ r, t.Message req s = some (r, (t.d.Message (Token.Message.buf req) s).2) := by
  rcases hd : t.d.Message (Token.Message.buf req) s with ⟨⟨raw, e⟩, s'⟩
  cases e with
  | some err => exact ⟨_, Message_transport_error t req s s' raw err hd⟩
  | none =>
    by_cases hlen : raw.length < 2
    · exact ⟨_, Message_short t req s s' raw hd hlen⟩
    · rw [reply_split raw (by omega)] at hd
      exact ⟨_, Message_reply t req s s' _ _ _ hd⟩

/-- A response comes without an error and an error without a response. -/
theorem Message_shape {σ : Type} (t : Token σ) (req : Request) (s : σ) :
    (∃ err, t.Message req s
        = some ((none, some err), (t.d.Message (Token.Message.buf req) s).2))
      ∨ (∃ res, t.Message req s
        = some ((some res, none), (t.d.Message (Token.Message.buf req) s).2)) := by
  rcases hd : t.d.Message (Token.Message.buf req) s with ⟨⟨raw, e⟩, s'⟩
  cases e with
  | some err => exact Or.inl ⟨_, Message_transport_error t req s s' raw err hd⟩
  | none =>
    by_cases hlen : raw.length < 2
    · exact Or.inl ⟨_, Message_short t req s s' raw hd hlen⟩
    · rw [reply_split raw (by omega)] at hd
      exact Or.inr ⟨_, Message_reply t req s s' _ _ _ hd⟩

/-- The bytes of the frame, as numbers. -/
theorem buf_val (req : Request) (h : req.Data.length ≤ 2 ^ 24 - 1) :
    (Token.Message.buf req).map Fin.val
      = [0, req.Command.val, req.Param1.val, req.Param2.val, req.Data.length / 65536,
          req.Data.length / 256 % 256, req.Data.length % 256] ++ req.Data.map Fin.val := by
  have h1 : req.Data.length / 65536 % 256 = req.Data.length / 65536 := by
    apply Nat.mod_eq_of_lt
    omega
  simp [Token.Message.buf, List.replicate, uint8, Nat.shiftRight_eq_div_pow, h1]

theorem buf_length (req : Request) : (Token.Message.buf req).length = 7 + req.Data.length := by
  simp [Token.Message.buf]
  omega

/-- On a request that passes validation `Token.Register` never panics, and leaves the
device in the state the one call of the device's `Message` produced. -/
theorem Register_total {σ : Type} (t : Token σ) (req : RegisterRequest) (s : σ)
    (hC : req.Challenge.length = 32) (hA : req.Application.length = 32) :
    ∃ r, t.Register req s
      = some (r, (t.d.Message (Token.Message.buf (Token.Register.request req)) s).2) := by
  rcases Message_shape t (Token.Register.request req) s with ⟨err, he⟩ | ⟨res, he⟩
  · exact ⟨(none, some err),
      by simp only [Token.Register, hC, hA, he, ne_eq, not_true_eq_false, if_false]⟩
  · simp only [Token.Register, hC, hA, he, ne_eq, not_true_eq_false, if_false]
    split_ifs
    · exact ⟨_, rfl⟩
    · exact ⟨_, rfl⟩
    · exact ⟨_, rfl⟩

/-- The payload `encodeAuthenticateRequest` builds for a request that passes its checks. -/
theorem encode_valid (req : AuthenticateRequest) (hC : req.Challenge.length = 32)
    (hA : req.Application.length = 32) (hK : req.KeyHandle.length ≤ 256) :
    encodeAuthenticateRequest req
      = (some (req.Challenge ++ req.Application ++ [uint8 req.KeyHandle.length]
          ++ req.KeyHandle), none) := by
  have hK' : ¬ req.KeyHandle.length > 256 := by omega
  simp [encodeAuthenticateRequest, hC, hA, hK']

/-- The function `encodeAuthenticateRequest` rejects every other request with one of its
three errors. -/
theorem encode_invalid (req : AuthenticateRequest)
    (h : req.Challenge.length ≠ 32 ∨ req.Application.length ≠ 32
      ∨ 256 < req.KeyHandle.length) :
    ∃ e, (e = Error.Errorf "u2ftoken: Challenge must be exactly 32 bytes" []
          ∨ e = Error.Errorf "u2ftoken: Application must be exactly 32 bytes" []
          ∨ e = Error.Errorf "u2ftoken: KeyHandle is too long" [])
      ∧ encodeAuthenticateRequest req = (none, some e) := by
  by_cases hC : req.Challenge.length = 32
  · by_cases hA : req.Application.length = 32
    · have hK : req.KeyHandle.length > 256 := by
        rcases h with h | h | h
        · exact absurd hC h
        · exact absurd hA h
        · exact h
      exact ⟨_, Or.inr (Or.inr rfl), by simp [encodeAuthenticateRequest, hC, hA, hK]⟩
    · exact ⟨_, Or.inr (Or.inl rfl), by simp [encodeAuthenticateRequest, hC, hA]⟩
  · exact ⟨_, Or.inl rfl, by simp [encodeAuthenticateRequest, hC]⟩

/-- The counter and the signature are read within the bounds of a data block of at least
six bytes. -/
theorem read_in_range (data : List Byte) (h : ¬ data.length < 6) :
    ∃ counter signature, (sliceFrom data 1).bind BigEndian.Uint32 = some counter
      ∧ sliceFrom data 5 = some signature := by
  match data, h with
  | p :: c0 :: c1 :: c2 :: c3 :: sg :: sig, _ =>
    exact ⟨2 ^ 24 * c0.val + 2 ^ 16 * c1.val + 2 ^ 8 * c2.val + c3.val, sg :: sig,
      by simp [sliceFrom, Uint32_eq], by simp [sliceFrom]⟩
  | [], h | [_], h | [_, _], h | [_, _, _], h | [_, _, _, _], h | [_, _, _, _, _], h =>
    simp at h

/-- Once `encodeAuthenticateRequest` has produced `buf`, `Token.Authenticate` never panics
and leaves the device in the state the one call of the device's `Message` produced. -/
theorem Authenticate_total {σ : Type} (t : Token σ) (req : AuthenticateRequest) (s : σ)
    (buf : List Byte) (hbuf : encodeAuthenticateRequest req = (some buf, none)) :
    ∃ r, t.Authenticate req s
      = some (r, (t.d.Message (Token.Message.buf (Token.Authenticate.request buf)) s).2) := by
  rcases Message_shape t (Token.Authenticate.request buf) s with ⟨err, he⟩ | ⟨res, he⟩
  · exact ⟨(none, some err), by simp only [Token.Authenticate, hbuf, he]⟩
  · simp only [Token.Authenticate, hbuf, he]
    split_ifs with h1 h2 h3
    · exact ⟨_, rfl⟩
    · exact ⟨_, rfl⟩
    · exact ⟨_, rfl⟩
    · obtain ⟨counter, signature, hc, hs⟩ := read_in_range res.Data h3
      rw [hc, hs]
      exact ⟨_, rfl⟩

/-- Once `encodeAuthenticateRequest` has produced `buf`, `Token.CheckAuthenticate` never
panics and leaves the device in the state the one call of the device's `Message`
produced. -/
theorem CheckAuthenticate_total {σ : Type} (t : Token σ) (req : AuthenticateRequest) (s : σ)
    (buf : List Byte) (hbuf : encodeAuthenticateRequest req = (some buf, none)) :
    ∃ e, t.CheckAuthenticate req s
      = some (e, (t.d.Message (Token.Message.buf (Token.CheckAuthenticate.request buf)) s).2) := by
  rcases Message_shape t (Token.CheckAuthenticate.request buf) s with ⟨err, he⟩ | ⟨res, he⟩
  · exact ⟨some err, by simp only [Token.CheckAuthenticate, hbuf, he]⟩
  · simp only [Token.CheckAuthenticate, hbuf, he]
    split_ifs
    · exact ⟨_, rfl⟩
    · exact ⟨_, rfl⟩
    · exact ⟨_, rfl⟩

/-- The method `Token.Version` never panics and leaves the device in the state the one
call of the device's `Message` produced. -/
theorem Version_total {σ : Type} (t : Token σ) (s : σ) :
    ∃ r, t.Version s
      = some (r, (t.d.Message (Token.Message.buf Token.Version.request) s).2) := by
  rcases Message_shape t Token.Version.request s with ⟨err, he⟩ | ⟨res, he⟩
  · exact ⟨(string [], some err), by simp only [Token.Version, he]⟩
  · simp only [Token.Version, he]
    split_ifs
    · exact ⟨_, rfl⟩
    · exact ⟨_, rfl⟩

/-- The frame as its seven header bytes followed by the payload. -/
theorem buf_eq (req : Request) :
    Token.Message.buf req
      = [0, req.Command, req.Param1, req.Param2, uint8 (req.Data.length >>> 16),
          uint8 (req.Data.length >>> 8), uint8 req.Data.length] ++ req.Data := by
  simp [Token.Message.buf, List.replicate]

/-- The three length bytes of a frame spell the payload length when it fits 24 bits. -/
theorem length_field (n : Nat) (h : n ≤ 2 ^ 24 - 1) :
    65536 * (uint8 (n >>> 16)).val + 256 * (uint8 (n >>> 8)).val + (uint8 n).val = n := by
  simp only [uint8, Nat.shiftRight_eq_div_pow]
  omega

/-- The length byte that `encodeAuthenticateRequest` writes equals the length of a key
handle of at most 255 bytes. -/
theorem encode_length_byte (req : AuthenticateRequest) (hC : req.Challenge.length = 32)
    (hA : req.Application.length = 32) (hK : req.KeyHandle.length ≤ 255) :
    ∃ b : Byte, b.val = req.KeyHandle.length
      ∧ encodeAuthenticateRequest req
        = (some (req.Challenge ++ req.Application ++ [b] ++ req.KeyHandle), none) := by
  refine ⟨uint8 req.KeyHandle.length, ?_, encode_valid req hC hA (by omega)⟩
  simp only [uint8]
  omega

/-- A request for which `encodeAuthenticateRequest` yields a payload passes its checks. -/
theorem encode_some_valid (req : AuthenticateRequest) (buf : List Byte)
    (h : encodeAuthenticateRequest req = (some buf, none)) :
    req.Challenge.length = 32 ∧ req.Application.length = 32 ∧ req.KeyHandle.length ≤ 256 := by
  by_contra hn
  have hbad : req.Challenge.length ≠ 32 ∨ req.Application.length ≠ 32
      ∨ 256 < req.KeyHandle.length := by omega
  obtain ⟨e, -, he⟩ := encode_invalid req hbad
  rw [he] at h
  simp at h

/-- Writing a big-endian counter back gives the four bytes it was read from. -/
theorem AppendUint32_eq (b : List Byte) (c0 c1 c2 c3 : Byte) :
    BigEndian.AppendUint32 b (2 ^ 24 * c0.val + 2 ^ 16 * c1.val + 2 ^ 8 * c2.val + c3.val)
      = b ++ [c0, c1, c2, c3] := by
  have h0 := c0.isLt
  have h1 := c1.isLt
  have h2 := c2.isLt
  have h3 := c3.isLt
  have e0 : uint8 ((2 ^ 24 * c0.val + 2 ^ 16 * c1.val + 2 ^ 8 * c2.val + c3.val) >>> 24)
      = c0 := by
    apply Fin.ext
    simp only [uint8, Nat.shiftRight_eq_div_pow]
    omega
  have e1 : uint8 ((2 ^ 24 * c0.val + 2 ^ 16 * c1.val + 2 ^ 8 * c2.val + c3.val) >>> 16)
      = c1 := by
    apply Fin.ext
    simp only [uint8, Nat.shiftRight_eq_div_pow]
    omega
  have e2 : uint8 ((2 ^ 24 * c0.val + 2 ^ 16 * c1.val + 2 ^ 8 * c2.val + c3.val) >>> 8)
      = c2 := by
    apply Fin.ext
    simp only [uint8, Nat.shiftRight_eq_div_pow]
    omega
  have e3 : uint8 (2 ^ 24 * c0.val + 2 ^ 16 * c1.val + 2 ^ 8 * c2.val + c3.val) = c3 := by
    apply Fin.ext
    simp only [uint8]
    omega
  simp only [BigEndian.AppendUint32, e0, e1, e2, e3]

/-- What `Token.Authenticate` does on a reply with two status bytes, once
`encodeAuthenticateRequest` has produced `buf`. -/
theorem Authenticate_reply {σ : Type} (t : Token σ) (req : AuthenticateRequest)
    (buf : List Byte) (s s' : σ) (D : List Byte) (hi lo : Byte)
    (hbuf : encodeAuthenticateRequest req = (some buf, none))
    (h : t.d.Message (Token.Message.buf (Token.Authenticate.request buf)) s
      = ((D ++ [hi, lo], none), s')) :
    t.Authenticate req s
      = if 256 * hi.val + lo.val ≠ 0x9000 then
          if 256 * hi.val + lo.val = 0x6985 then some ((none, some ErrPresenceRequired), s')
          else some ((none, some (Error.Errorf
            "u2ftoken: unexpected error %d during authentication"
            [256 * hi.val + lo.val])), s')
        else if D.length < 6 then
          some ((none, some (Error.Errorf
            "u2ftoken: authenticate response is too short, got %d bytes" [D.length])), s')
        else
          match (sliceFrom D 1).bind BigEndian.Uint32, sliceFrom D 5 with
          | some counter, some signature =>
            some ((some { Counter := counter, Signature := signature, RawResponse := D },
              none), s')
          | _, _ => none := by
  have hm := Message_reply t _ s s' D hi lo h
  simp only [Token.Authenticate, hbuf, hm, StatusNoError, StatusConditionsNotSatisfied]

/-- Whenever `Token.Authenticate` returns a response, the request passed the checks, the
device replied without error with at least six data bytes and the status `0x90 0x00`, the
response is read off that data, and no error comes with it. -/
theorem Authenticate_response_inv {σ : Type} (t : Token σ) (req : AuthenticateRequest)
    (s s' : σ) (resp : AuthenticateResponse) (e : Option Error)
    (h : t.Authenticate req s = some ((some resp, e), s')) :
    ∃ buf p c0 c1 c2 c3 sg sig,
      encodeAuthenticateRequest req = (some buf, none)
      ∧ t.d.Message (Token.Message.buf (Token.Authenticate.request buf)) s
        = ((p :: c0 :: c1 :: c2 :: c3 :: sg :: sig ++ [0x90, 0x00], none), s')
      ∧ resp = { Counter := 2 ^ 24 * c0.val + 2 ^ 16 * c1.val + 2 ^ 8 * c2.val + c3.val,
                 Signature := sg :: sig,
                 RawResponse := p :: c0 :: c1 :: c2 :: c3 :: sg :: sig }
      ∧ e = none := by
  rcases henc : encodeAuthenticateRequest req with ⟨b, err⟩
  cases err with
  | some err => simp [Token.Authenticate, henc] at h
  | none =>
    cases b with
    | none => simp [Token.Authenticate, henc] at h
    | some buf =>
      rcases hd : t.d.Message (Token.Message.buf (Token.Authenticate.request buf)) s
        with ⟨⟨raw, e'⟩, s1⟩
      cases e' with
      | some err =>
        have hm := Message_transport_error t _ s s1 raw err hd
        simp [Token.Authenticate, henc, hm] at h
      | none =>
        by_cases hlen : raw.length < 2
        · have hm := Message_short t _ s s1 raw hd hlen
          simp [Token.Authenticate, henc, hm] at h
        · have hsplit := reply_split raw (by omega)
          generalize raw.take (raw.length - 2) = D at hsplit
          generalize raw.get ⟨raw.length - 2, by omega⟩ = hi at hsplit
          generalize raw.get ⟨raw.length - 1, by omega⟩ = lo at hsplit
          subst hsplit
          rw [Authenticate_reply t req buf s s1 D hi lo henc hd] at h
          split_ifs at h with h1 h2 h3
          · simp at h
          · simp at h
          · simp at h
          · have hhi : hi = 0x90 := by
              apply Fin.ext
              have := hi.isLt
              have := lo.isLt
              simp only [ne_eq, not_not] at h1
              show hi.val = 144
              omega
            have hlo : lo = 0x00 := by
              apply Fin.ext
              have := hi.isLt
              have := lo.isLt
              simp only [ne_eq, not_not] at h1
              show lo.val = 0
              omega
            subst hhi hlo
            match D, h3, h, hd with
            | p :: c0 :: c1 :: c2 :: c3 :: sg :: sig, _, h, hd =>
              simp only [sliceFrom, List.length_cons, Nat.le_add_left, if_true, List.drop,
                Option.bind, Uint32_eq] at h
              simp at h
              refine ⟨buf, p, c0, c1, c2, c3, sg, sig, rfl, ?_, ?_, h.1.2.symm⟩
              · rw [← h.2]
                exact hd
              · rw [← h.1.1]
                norm_num
            | [], h3, _, _ | [_], h3, _, _ | [_, _], h3, _, _ | [_, _, _], h3, _, _
            | [_, _, _, _], h3, _, _ | [_, _, _, _, _], h3, _, _ =>
              simp at h3

/-- The method `Token.Authenticate` never panics, whatever the request and the device. -/
theorem Authenticate_no_panic {σ : Type} (t : Token σ) (req : AuthenticateRequest) (s : σ) :
    t.Authenticate req s ≠ none := by
  by_cases hv : req.Challenge.length = 32 ∧ req.Application.length = 32
      ∧ req.KeyHandle.length ≤ 256
  · obtain ⟨r, hr⟩ := Authenticate_total t req s _ (encode_valid req hv.1 hv.2.1 hv.2.2)
    rw [hr]
    simp
  · obtain ⟨e, -, he⟩ := encode_invalid req (by omega)
    simp [Token.Authenticate, he]

/-- The frame of a payload of exactly `2^24` bytes: its three length bytes are zero. -/
theorem buf_oversized (cmd p1 p2 : Byte) (data : List Byte) (h : data.length = 2 ^ 24) :
    Token.Message.buf { Command := cmd, Param1 := p1, Param2 := p2, Data := data }
      = [0, cmd, p1, p2, 0, 0, 0] ++ data := by
  have e2 : uint8 (2 ^ 24 >>> 16) = 0 := by decide
  have e1 : uint8 (2 ^ 24 >>> 8) = 0 := by decide
  have e0 : uint8 (2 ^ 24) = 0 := by decide
  rw [buf_eq]
  simp only [h, e2, e1, e0]

/-- What `Token.Authenticate` does on a reply with the status bytes `0x90 0x00`, once
`encodeAuthenticateRequest` has produced `buf`. -/
theorem Authenticate_reply_ok {σ : Type} (t : Token σ) (req : AuthenticateRequest)
    (buf : List Byte) (s s' : σ) (D : List Byte)
    (hbuf : encodeAuthenticateRequest req = (some buf, none))
    (h : t.d.Message (Token.Message.buf (Token.Authenticate.request buf)) s
      = ((D ++ [0x90, 0x00], none), s')) :
    t.Authenticate req s
      = if D.length < 6 then
          some ((none, some (Error.Errorf
            "u2ftoken: authenticate response is too short, got %d bytes" [D.length])), s')
        else
          match (sliceFrom D 1).bind BigEndian.Uint32, sliceFrom D 5 with
          | some counter, some signature =>
            some ((some { Counter := counter, Signature := signature, RawResponse := D },
              none), s')
          | _, _ => none := by
  have hm := Message_status t _ s s' D 0x90 0x00 0x9000 rfl h
  simp only [Token.Authenticate, hbuf, hm, StatusNoError, ne_eq, not_true_eq_false, if_false]

/-- What a recording device has logged after `Token.Message`: the old log and the frame. -/
theorem Message_recording {σ : Type} (d : Device σ) (req : Request) (s : σ)
    (log : List (List Byte)) :
    ∃ r s', (NewToken d.recording).Message req (s, log)
      = some (r, (s', log ++ [Token.Message.buf req])) := by
  obtain ⟨r, hr⟩ := Message_total (NewToken d.recording) req (s, log)
  exact ⟨r, _, hr⟩

/-! ## The frame codec -/

/-- C1: for every low-level request whose payload has `n ≤ 2^24 - 1` bytes, `Message`
hands the transport exactly one frame, of `7 + n` bytes: `0`, the command, the two
parameters, `n / 65536`, `n / 256 % 256`, `n % 256`, and then the payload unchanged. -/
theorem Message_sends_frame {σ : Type} (d : Device σ) (req : Request) (s : σ)
    (log : List (List Byte)) (h : req.Data.length ≤ 2 ^ 24 - 1) :
    ∃ r s' frame,
      (NewToken d.recording).Message req (s, log) = some (r, (s', log ++ [frame]))
      ∧ frame.map Fin.val
          = [0, req.Command.val, req.Param1.val, req.Param2.val, req.Data.length / 65536,
              req.Data.length / 256 % 256, req.Data.length % 256] ++ req.Data.map Fin.val
      ∧ frame.length = 7 + req.Data.length := by
  obtain ⟨r, s', hr⟩ := Message_recording d req s log
  exact ⟨r, s', _, hr, buf_val req h, buf_length req⟩

theorem Message_sends_frame_witness :
    ∃ r s' frame,
      (NewToken (Device.stub ([0x90, 0x00], none)).recording).Message
          { Command := 1, Param1 := 3, Param2 := 0, Data := [5, 6] } ((), [])
        = some (r, (s', [] ++ [frame]))
      ∧ frame.map Fin.val = [0, 1, 3, 0, 2 / 65536, 2 / 256 % 256, 2 % 256] ++ [5, 6]
      ∧ frame.length = 7 + 2 :=
  Message_sends_frame (Device.stub ([0x90, 0x00], none))
    { Command := 1, Param1 := 3, Param2 := 0, Data := [5, 6] } () [] (by decide)

/-- C2: when the transport returns `raw` without an error, `Message` fails with the
response-too-short error and no response if `raw` has fewer than two bytes, and otherwise
succeeds with `Status` the big-endian value of the last two bytes of `raw` and `Data` the
bytes before them. -/
theorem Message_decodes_reply {σ : Type} (t : Token σ) (req : Request) (s s' : σ)
    (raw : List Byte) (h : t.d.Message (Token.Message.buf req) s = ((raw, none), s')) :
    (raw.length < 2 →
      t.Message req s = some ((none, some (Error.Errorf
        "u2ftoken: response is too short, got %d bytes" [raw.length])), s'))
    ∧ (∀ h2 : 2 ≤ raw.length,
      t.Message req s = some ((some
        { Data := raw.take (raw.length - 2),
          Status := 256 * (raw.get ⟨raw.length - 2, by omega⟩).val
            + (raw.get ⟨raw.length - 1, by omega⟩).val }, none), s')) := by
  refine ⟨Message_short t req s s' raw h, fun h2 => ?_⟩
  rw [reply_split raw h2] at h
  exact Message_reply t req s s' _ _ _ h

theorem Message_decodes_reply_witness :
    (NewToken (Device.stub ([0x90], none))).Message
        { Command := 3, Param1 := 0, Param2 := 0, Data := [] } ()
      = some ((none, some (Error.Errorf
          "u2ftoken: response is too short, got %d bytes" [1])), ())
    ∧ (NewToken (Device.stub ([1, 2, 0x90, 0x00], none))).Message
        { Command := 3, Param1 := 0, Param2 := 0, Data := [] } ()
      = some ((some { Data := [1, 2], Status := 0x9000 }, none), ()) :=
  ⟨(Message_decodes_reply (NewToken (Device.stub ([0x90], none)))
      { Command := 3, Param1 := 0, Param2 := 0, Data := [] } () () [0x90] rfl).1 (by decide),
    (Message_decodes_reply (NewToken (Device.stub ([1, 2, 0x90, 0x00], none)))
      { Command := 3, Param1 := 0, Param2 := 0, Data := [] } () () [1, 2, 0x90, 0x00] rfl).2
      (by decide)⟩

/-! ## Validation -/

/-- C3: `Register` fails with one of the two validation errors, without data and without
invoking the transport, exactly when the challenge or the application is not 32 bytes
long; when both are, the transport is invoked. -/
theorem Register_validation {σ : Type} (d : Device σ) (req : RegisterRequest) (s : σ)
    (log : List (List Byte)) :
    ((∃ e, (e = Error.Errorf "u2ftoken: Challenge must be exactly 32 bytes" []
            ∨ e = Error.Errorf "u2ftoken: Application must be exactly 32 bytes" [])
          ∧ (NewToken d.recording).Register req (s, log) = some ((none, some e), (s, log)))
      ↔ (req.Challenge.length ≠ 32 ∨ req.Application.length ≠ 32))
    ∧ (req.Challenge.length = 32 → req.Application.length = 32 →
        ∃ r s' frame,
          (NewToken d.recording).Register req (s, log) = some (r, (s', log ++ [frame]))) := by
  have valid : req.Challenge.length = 32 → req.Application.length = 32 →
      ∃ r s' frame,
        (NewToken d.recording).Register req (s, log) = some (r, (s', log ++ [frame])) := by
    intro hC hA
    obtain ⟨r, hr⟩ := Register_total (NewToken d.recording) req (s, log) hC hA
    exact ⟨r, _, _, hr⟩
  refine ⟨⟨?_, ?_⟩, valid⟩
  · rintro ⟨e, -, he⟩
    by_contra hn
    push_neg at hn
    obtain ⟨r, s', frame, hr⟩ := valid hn.1 hn.2
    rw [he] at hr
    simp at hr
  · intro hbad
    by_cases hC : req.Challenge.length = 32
    · have hA : req.Application.length ≠ 32 := by
        rcases hbad with h | h
        · exact absurd hC h
        · exact h
      exact ⟨_, Or.inr rfl, by simp [Token.Register, hC, hA]⟩
    · exact ⟨_, Or.inl rfl, by simp [Token.Register, hC]⟩

theorem Register_validation_witness :
    ((∃ e, (e = Error.Errorf "u2ftoken: Challenge must be exactly 32 bytes" []
            ∨ e = Error.Errorf "u2ftoken: Application must be exactly 32 bytes" [])
          ∧ (NewToken (Device.stub ([0x90, 0x00], none)).recording).Register
              { Challenge := List.replicate 32 7, Application := List.replicate 32 9 } ((), [])
            = some ((none, some e), ((), [])))
      ↔ ((List.replicate 32 (7 : Byte)).length ≠ 32
          ∨ (List.replicate 32 (9 : Byte)).length ≠ 32))
    ∧ ∃ r s' frame,
        (NewToken (Device.stub ([0x90, 0x00], none)).recording).Register
            { Challenge := List.replicate 32 7, Application := List.replicate 32 9 } ((), [])
          = some (r, (s', [] ++ [frame])) :=
  let h := Register_validation (Device.stub ([0x90, 0x00], none))
    { Challenge := List.replicate 32 7, Application := List.replicate 32 9 } () []
  ⟨h.1, h.2 (by decide) (by decide)⟩

/-- C4: `Authenticate` and `CheckAuthenticate` each fail with one of the three validation
errors, without invoking the transport, exactly when the challenge or the application is
not 32 bytes long or the key handle is longer than 256 bytes; every other request reaches
the transport. -/
theorem Authenticate_validation {σ : Type} (d : Device σ) (req : AuthenticateRequest)
    (s : σ) (log : List (List Byte)) :
    ((∃ e, (e = Error.Errorf "u2ftoken: Challenge must be exactly 32 bytes" []
            ∨ e = Error.Errorf "u2ftoken: Application must be exactly 32 bytes" []
            ∨ e = Error.Errorf "u2ftoken: KeyHandle is too long" [])
          ∧ (NewToken d.recording).Authenticate req (s, log)
              = some ((none, some e), (s, log)))
      ↔ (req.Challenge.length ≠ 32 ∨ req.Application.length ≠ 32
          ∨ 256 < req.KeyHandle.length))
    ∧ ((∃ e, (e = Error.Errorf "u2ftoken: Challenge must be exactly 32 bytes" []
            ∨ e = Error.Errorf "u2ftoken: Application must be exactly 32 bytes" []
            ∨ e = Error.Errorf "u2ftoken: KeyHandle is too long" [])
          ∧ (NewToken d.recording).CheckAuthenticate req (s, log) = some (some e, (s, log)))
      ↔ (req.Challenge.length ≠ 32 ∨ req.Application.length ≠ 32
          ∨ 256 < req.KeyHandle.length))
    ∧ (req.Challenge.length = 32 → req.Application.length = 32
        → req.KeyHandle.length ≤ 256 →
        (∃ r s' frame, (NewToken d.recording).Authenticate req (s, log)
            = some (r, (s', log ++ [frame])))
        ∧ (∃ e s' frame, (NewToken d.recording).CheckAuthenticate req (s, log)
            = some (e, (s', log ++ [frame])))) := by
  have valid : req.Challenge.length = 32 → req.Application.length = 32
      → req.KeyHandle.length ≤ 256 →
      (∃ r s' frame, (NewToken d.recording).Authenticate req (s, log)
          = some (r, (s', log ++ [frame])))
      ∧ (∃ e s' frame, (NewToken d.recording).CheckAuthenticate req (s, log)
          = some (e, (s', log ++ [frame]))) := by
    intro hC hA hK
    obtain ⟨r, hr⟩ := Authenticate_total (NewToken d.recording) req (s, log) _
      (encode_valid req hC hA hK)
    obtain ⟨e, he⟩ := CheckAuthenticate_total (NewToken d.recording) req (s, log) _
      (encode_valid req hC hA hK)
    exact ⟨⟨r, _, _, hr⟩, ⟨e, _, _, he⟩⟩
  refine ⟨⟨?_, ?_⟩, ⟨?_, ?_⟩, valid⟩
  · rintro ⟨e, -, he⟩
    by_contra hn
    obtain ⟨⟨r, s', frame, hr⟩, -⟩ := valid (by omega) (by omega) (by omega)
    rw [he] at hr
    simp at hr
  · intro hbad
    obtain ⟨e, hval, he⟩ := encode_invalid req hbad
    exact ⟨e, hval, by simp only [Token.Authenticate, he]⟩
  · rintro ⟨e, -, he⟩
    by_contra hn
    obtain ⟨-, ⟨r, s', frame, hr⟩⟩ := valid (by omega) (by omega) (by omega)
    rw [he] at hr
    simp at hr
  · intro hbad
    obtain ⟨e, hval, he⟩ := encode_invalid req hbad
    exact ⟨e, hval, by simp only [Token.CheckAuthenticate, he]⟩

theorem Authenticate_validation_witness :
    (∃ r s' frame, (NewToken (Device.stub ([0x69, 0x85], none)).recording).Authenticate
        { Challenge := List.replicate 32 7, Application := List.replicate 32 9,
          KeyHandle := List.replicate 256 1 } ((), [])
      = some (r, (s', [] ++ [frame])))
    ∧ (∃ e s' frame, (NewToken (Device.stub ([0x69, 0x85], none)).recording).CheckAuthenticate
        { Challenge := List.replicate 32 7, Application := List.replicate 32 9,
          KeyHandle := List.replicate 256 1 } ((), [])
      = some (e, (s', [] ++ [frame]))) :=
  (Authenticate_validation (Device.stub ([0x69, 0x85], none))
    { Challenge := List.replicate 32 7, Application := List.replicate 32 9,
      KeyHandle := List.replicate 256 1 } () []).2.2
    (by simp) (by simp) (by simp only [List.length_replicate, le_refl])

/-! ## Status interpretation -/

/-- C5: for a request with a 32-byte challenge and a 32-byte application, when the
transport replies with `D` followed by the status bytes `0x90 0x00`, `Register` returns
exactly `D` and no error. -/
theorem Register_success {σ : Type} (t : Token σ) (req : RegisterRequest) (s s' : σ)
    (D : List Byte) (hC : req.Challenge.length = 32) (hA : req.Application.length = 32)
    (h : t.d.Message (Token.Message.buf (Token.Register.request req)) s
      = ((D ++ [0x90, 0x00], none), s')) :
    t.Register req s = some ((some D, none), s') := by
  have hm := Message_status t _ s s' D 0x90 0x00 0x9000 rfl h
  simp [Token.Register, hC, hA, hm, StatusNoError]

theorem Register_success_witness :
    (NewToken (Device.stub ([4, 5, 6] ++ [0x90, 0x00], none))).Register
        { Challenge := List.replicate 32 7, Application := List.replicate 32 9 } ()
      = some ((some [4, 5, 6], none), ()) :=
  Register_success (NewToken (Device.stub ([4, 5, 6] ++ [0x90, 0x00], none)))
    { Challenge := List.replicate 32 7, Application := List.replicate 32 9 } () ()
    [4, 5, 6] (by simp) (by simp) rfl

/-- C6: for a request that passes validation, when the transport replies with any data
followed by the status bytes `0x69 0x85`, `Register` returns `ErrPresenceRequired` and no
data, and `Authenticate` returns `ErrPresenceRequired` and no response. -/
theorem presence_required {σ : Type} (t : Token σ) (rreq : RegisterRequest)
    (areq : AuthenticateRequest) (buf : List Byte) (s s' : σ) (D : List Byte)
    (hC : rreq.Challenge.length = 32) (hA : rreq.Application.length = 32)
    (hbuf : encodeAuthenticateRequest areq = (some buf, none)) :
    (t.d.Message (Token.Message.buf (Token.Register.request rreq)) s
        = ((D ++ [0x69, 0x85], none), s') →
      t.Register rreq s = some ((none, some ErrPresenceRequired), s'))
    ∧ (t.d.Message (Token.Message.buf (Token.Authenticate.request buf)) s
        = ((D ++ [0x69, 0x85], none), s') →
      t.Authenticate areq s = some ((none, some ErrPresenceRequired), s')) := by
  constructor
  · intro h
    have hm := Message_status t _ s s' D 0x69 0x85 0x6985 rfl h
    simp [Token.Register, hC, hA, hm, StatusNoError, StatusConditionsNotSatisfied]
  · intro h
    have hm := Message_status t _ s s' D 0x69 0x85 0x6985 rfl h
    simp [Token.Authenticate, hbuf, hm, StatusNoError, StatusConditionsNotSatisfied]

theorem presence_required_witness :
    (NewToken (Device.stub ([1, 2, 3] ++ [0x69, 0x85], none))).Register
        { Challenge := List.replicate 32 7, Application := List.replicate 32 9 } ()
      = some ((none, some ErrPresenceRequired), ())
    ∧ (NewToken (Device.stub ([1, 2, 3] ++ [0x69, 0x85], none))).Authenticate
        { Challenge := List.replicate 32 7, Application := List.replicate 32 9,
          KeyHandle := [1, 2] } ()
      = some ((none, some ErrPresenceRequired), ()) :=
  let h := presence_required (NewToken (Device.stub ([1, 2, 3] ++ [0x69, 0x85], none)))
    { Challenge := List.replicate 32 7, Application := List.replicate 32 9 }
    { Challenge := List.replicate 32 7, Application := List.replicate 32 9,
      KeyHandle := [1, 2] }
    (List.replicate 32 7 ++ List.replicate 32 9 ++ [2] ++ [1, 2]) () () [1, 2, 3]
    (by simp) (by simp) rfl
  ⟨h.1 rfl, h.2 rfl⟩

/-- C7: for a request that passes validation and a reply `D ++ [hi, lo]` (any reply of at
least two bytes), `CheckAuthenticate` returns no error exactly when the status
`256 * hi + lo` is `0x6985`, returns `ErrUnknownKeyHandle` exactly when it is `0x6a80`,
and returns what it returns on the reply `[hi, lo]` without the data bytes. -/
theorem CheckAuthenticate_status {σ : Type} (t : Token σ) (req : AuthenticateRequest)
    (buf : List Byte) (s s' : σ) (D : List Byte) (hi lo : Byte)
    (hbuf : encodeAuthenticateRequest req = (some buf, none))
    (h : t.d.Message (Token.Message.buf (Token.CheckAuthenticate.request buf)) s
      = ((D ++ [hi, lo], none), s')) :
    ∃ e, t.CheckAuthenticate req s = some (e, s')
      ∧ (e = none ↔ 256 * hi.val + lo.val = 0x6985)
      ∧ (e = some ErrUnknownKeyHandle ↔ 256 * hi.val + lo.val = 0x6a80)
      ∧ (NewToken (Device.stub ([hi, lo], none))).CheckAuthenticate req () = some (e, ()) := by
  have hm := Message_reply t _ s s' D hi lo h
  have hm' := Message_reply (NewToken (Device.stub ([hi, lo], none)))
    (Token.CheckAuthenticate.request buf) () () [] hi lo rfl
  simp only [Token.CheckAuthenticate, hbuf, hm, hm', StatusConditionsNotSatisfied,
    StatusWrongData]
  by_cases h1 : 256 * hi.val + lo.val = 0x6985
  · refine ⟨none, by simp [h1], by simp [h1], ?_, by simp [h1]⟩
    simp [h1]
  · by_cases h2 : 256 * hi.val + lo.val = 0x6a80
    · refine ⟨some ErrUnknownKeyHandle, by simp [h2], ?_, by simp [h2], by simp [h2]⟩
      simp [h2]
    · refine ⟨some (Error.Errorf "u2ftoken: unexpected error %d during auth check"
        [256 * hi.val + lo.val]), by simp [h1, h2], by simp [h1], ?_, by simp [h1, h2]⟩
      simp [h2, ErrUnknownKeyHandle]

theorem CheckAuthenticate_status_witness :
    ∃ e, (NewToken (Device.stub ([1, 2, 3] ++ [0x6a, 0x80], none))).CheckAuthenticate
          { Challenge := List.replicate 32 7, Application := List.replicate 32 9,
            KeyHandle := [1, 2] } ()
        = some (e, ())
      ∧ (e = none ↔ 256 * (0x6a : Byte).val + (0x80 : Byte).val = 0x6985)
      ∧ (e = some ErrUnknownKeyHandle ↔ 256 * (0x6a : Byte).val + (0x80 : Byte).val = 0x6a80)
      ∧ (NewToken (Device.stub ([0x6a, 0x80], none))).CheckAuthenticate
          { Challenge := List.replicate 32 7, Application := List.replicate 32 9,
            KeyHandle := [1, 2] } ()
        = some (e, ()) :=
  CheckAuthenticate_status (NewToken (Device.stub ([1, 2, 3] ++ [0x6a, 0x80], none)))
    { Challenge := List.replicate 32 7, Application := List.replicate 32 9,
      KeyHandle := [1, 2] }
    (List.replicate 32 7 ++ List.replicate 32 9 ++ [2] ++ [1, 2]) () () [1, 2, 3] 0x6a 0x80
    rfl rfl

/-- C8, as the claim states it, fails: on a success reply whose data is exactly the five
bytes `[0, 0, 0, 0, 5]` (presence byte and counter, empty signature) `Authenticate`
returns the too-short error and no response. -/
theorem Authenticate_five_data_bytes :
    5 ≤ ([0, 0, 0, 0, 5] : List Byte).length
    ∧ (NewToken (Device.stub ([0, 0, 0, 0, 5] ++ [0x90, 0x00], none))).Authenticate
          { Challenge := List.replicate 32 7, Application := List.replicate 32 9,
            KeyHandle := [1, 2] } ()
        = some ((none, some (Error.Errorf
            "u2ftoken: authenticate response is too short, got %d bytes" [5])), ())
    ∧ ¬ ∃ resp, (NewToken (Device.stub ([0, 0, 0, 0, 5] ++ [0x90, 0x00], none))).Authenticate
          { Challenge := List.replicate 32 7, Application := List.replicate 32 9,
            KeyHandle := [1, 2] } ()
        = some ((some resp, none), ()) := by
  have h : (NewToken (Device.stub ([0, 0, 0, 0, 5] ++ [0x90, 0x00], none))).Authenticate
          { Challenge := List.replicate 32 7, Application := List.replicate 32 9,
            KeyHandle := [1, 2] } ()
        = some ((none, some (Error.Errorf
            "u2ftoken: authenticate response is too short, got %d bytes" [5])), ()) := rfl
  refine ⟨by decide, h, ?_⟩
  rintro ⟨resp, hr⟩
  rw [h] at hr
  simp at hr

/-- C8, amended: for a request that passes validation and a reply with status `0x9000`
whose data has at least six bytes (presence byte, four counter bytes and a non-empty
signature), `Authenticate` returns no error and a response whose `Counter` is the
big-endian value of data bytes 1 to 4, whose `Signature` is the data from offset 5 and
whose `RawResponse` is the whole data. -/
theorem Authenticate_success {σ : Type} (t : Token σ) (req : AuthenticateRequest)
    (buf : List Byte) (s s' : σ) (p c0 c1 c2 c3 sg : Byte) (sig : List Byte)
    (hbuf : encodeAuthenticateRequest req = (some buf, none))
    (h : t.d.Message (Token.Message.buf (Token.Authenticate.request buf)) s
      = ((p :: c0 :: c1 :: c2 :: c3 :: sg :: sig ++ [0x90, 0x00], none), s')) :
    t.Authenticate req s
      = some ((some
          { Counter := 2 ^ 24 * c0.val + 2 ^ 16 * c1.val + 2 ^ 8 * c2.val + c3.val,
            Signature := sg :: sig,
            RawResponse := p :: c0 :: c1 :: c2 :: c3 :: sg :: sig }, none), s') := by
  have hm := Message_status t _ s s' (p :: c0 :: c1 :: c2 :: c3 :: sg :: sig) 0x90 0x00
    0x9000 rfl h
  simp [Token.Authenticate, hbuf, hm, StatusNoError, sliceFrom, Uint32_eq]

theorem Authenticate_success_witness :
    (NewToken (Device.stub
        ([0x00, 0, 0, 0, 5, 0xAA, 0xBB, 0xCC, 0xDD] ++ [0x90, 0x00], none))).Authenticate
        { Challenge := List.replicate 32 7, Application := List.replicate 32 9,
          KeyHandle := [1, 2] } ()
      = some ((some
          { Counter := 2 ^ 24 * 0 + 2 ^ 16 * 0 + 2 ^ 8 * 0 + 5,
            Signature := [0xAA, 0xBB, 0xCC, 0xDD],
            RawResponse := [0x00, 0, 0, 0, 5, 0xAA, 0xBB, 0xCC, 0xDD] }, none), ()) :=
  Authenticate_success
    (NewToken (Device.stub
      ([0x00, 0, 0, 0, 5, 0xAA, 0xBB, 0xCC, 0xDD] ++ [0x90, 0x00], none)))
    { Challenge := List.replicate 32 7, Application := List.replicate 32 9,
      KeyHandle := [1, 2] }
    (List.replicate 32 7 ++ List.replicate 32 9 ++ [2] ++ [1, 2]) () ()
    0x00 0 0 0 5 0xAA [0xBB, 0xCC, 0xDD] rfl rfl

/-- C9: on a reply `D ++ [hi, lo]` (any reply of at least two bytes), `Version` returns
no error and the string whose bytes are exactly `D` when the status `256 * hi + lo` is
`0x9000`, and otherwise the empty string and the unexpected-status error carrying the
status. -/
theorem Version_status {σ : Type} (t : Token σ) (s s' : σ) (D : List Byte) (hi lo : Byte)
    (h : t.d.Message (Token.Message.buf Token.Version.request) s
      = ((D ++ [hi, lo], none), s')) :
    (256 * hi.val + lo.val = 0x9000 →
      t.Version s = some (({ bytes := D }, none), s'))
    ∧ (256 * hi.val + lo.val ≠ 0x9000 →
      t.Version s = some (({ bytes := [] }, some (Error.Errorf
        "u2ftoken: unexpected error %d during version request"
        [256 * hi.val + lo.val])), s')) := by
  have hm := Message_reply t _ s s' D hi lo h
  constructor
  · intro hst
    simp [Token.Version, hm, StatusNoError, hst, string]
  · intro hst
    simp [Token.Version, hm, StatusNoError, hst, string]

theorem Version_status_witness :
    (NewToken (Device.stub ([0x55, 0x32, 0x46, 0x5f, 0x56, 0x32] ++ [0x90, 0x00], none))).Version ()
        = some (({ bytes := [0x55, 0x32, 0x46, 0x5f, 0x56, 0x32] }, none), ())
    ∧ (NewToken (Device.stub ([] ++ [0x6d, 0x00], none))).Version ()
        = some (({ bytes := [] }, some (Error.Errorf
            "u2ftoken: unexpected error %d during version request"
            [256 * (0x6d : Byte).val + (0x00 : Byte).val])), ()) :=
  ⟨(Version_status
      (NewToken (Device.stub ([0x55, 0x32, 0x46, 0x5f, 0x56, 0x32] ++ [0x90, 0x00], none)))
      () () [0x55, 0x32, 0x46, 0x5f, 0x56, 0x32] 0x90 0x00 rfl).1 (by decide),
    (Version_status (NewToken (Device.stub ([] ++ [0x6d, 0x00], none)))
      () () [] 0x6d 0x00 rfl).2 (by decide)⟩

/-- C10: for a request that passes validation and a reply `D ++ [hi, lo]` whose status
`256 * hi + lo` is not enumerated for the operation, the operation returns no result and
the unexpected-status error that carries exactly the status: `Register` and `Authenticate`
for every status other than `0x9000` and `0x6985`, `CheckAuthenticate` for every status
other than `0x6985` and `0x6a80`, `Version` for every status other than `0x9000`. -/
theorem unexpected_status {σ : Type} (t : Token σ) (rreq : RegisterRequest)
    (areq : AuthenticateRequest) (buf : List Byte) (s s' : σ) (D : List Byte) (hi lo : Byte)
    (hC : rreq.Challenge.length = 32) (hA : rreq.Application.length = 32)
    (hbuf : encodeAuthenticateRequest areq = (some buf, none)) :
    (t.d.Message (Token.Message.buf (Token.Register.request rreq)) s
        = ((D ++ [hi, lo], none), s') →
      256 * hi.val + lo.val ≠ 0x9000 → 256 * hi.val + lo.val ≠ 0x6985 →
      t.Register rreq s = some ((none, some (Error.Errorf
        "u2ftoken: unexpected error %d during registration" [256 * hi.val + lo.val])), s'))
    ∧ (t.d.Message (Token.Message.buf (Token.Authenticate.request buf)) s
        = ((D ++ [hi, lo], none), s') →
      256 * hi.val + lo.val ≠ 0x9000 → 256 * hi.val + lo.val ≠ 0x6985 →
      t.Authenticate areq s = some ((none, some (Error.Errorf
        "u2ftoken: unexpected error %d during authentication" [256 * hi.val + lo.val])), s'))
    ∧ (t.d.Message (Token.Message.buf (Token.CheckAuthenticate.request buf)) s
        = ((D ++ [hi, lo], none), s') →
      256 * hi.val + lo.val ≠ 0x6985 → 256 * hi.val + lo.val ≠ 0x6a80 →
      t.CheckAuthenticate areq s = some (some (Error.Errorf
        "u2ftoken: unexpected error %d during auth check" [256 * hi.val + lo.val]), s'))
    ∧ (t.d.Message (Token.Message.buf Token.Version.request) s
        = ((D ++ [hi, lo], none), s') →
      256 * hi.val + lo.val ≠ 0x9000 →
      t.Version s = some (({ bytes := [] }, some (Error.Errorf
        "u2ftoken: unexpected error %d during version request"
        [256 * hi.val + lo.val])), s')) := by
  refine ⟨?_, ?_, ?_, ?_⟩
  · intro h h1 h2
    have hm := Message_reply t _ s s' D hi lo h
    simp [Token.Register, hC, hA, hm, StatusNoError, StatusConditionsNotSatisfied, h1, h2]
  · intro h h1 h2
    have hm := Message_reply t _ s s' D hi lo h
    simp [Token.Authenticate, hbuf, hm, StatusNoError, StatusConditionsNotSatisfied, h1, h2]
  · intro h h1 h2
    have hm := Message_reply t _ s s' D hi lo h
    simp [Token.CheckAuthenticate, hbuf, hm, StatusWrongData, StatusConditionsNotSatisfied,
      h1, h2]
  · intro h h1
    have hm := Message_reply t _ s s' D hi lo h
    simp [Token.Version, hm, StatusNoError, h1, string]

theorem unexpected_status_witness :
    (NewToken (Device.stub ([1, 2, 3] ++ [0x6d, 0x00], none))).Register
        { Challenge := List.replicate 32 7, Application := List.replicate 32 9 } ()
      = some ((none, some (Error.Errorf "u2ftoken: unexpected error %d during registration"
          [256 * (0x6d : Byte).val + (0x00 : Byte).val])), ())
    ∧ (NewToken (Device.stub ([1, 2, 3] ++ [0x6d, 0x00], none))).Authenticate
        { Challenge := List.replicate 32 7, Application := List.replicate 32 9,
          KeyHandle := [1, 2] } ()
      = some ((none, some (Error.Errorf "u2ftoken: unexpected error %d during authentication"
          [256 * (0x6d : Byte).val + (0x00 : Byte).val])), ())
    ∧ (NewToken (Device.stub ([1, 2, 3] ++ [0x6d, 0x00], none))).CheckAuthenticate
        { Challenge := List.replicate 32 7, Application := List.replicate 32 9,
          KeyHandle := [1, 2] } ()
      = some (some (Error.Errorf "u2ftoken: unexpected error %d during auth check"
          [256 * (0x6d : Byte).val + (0x00 : Byte).val]), ())
    ∧ (NewToken (Device.stub ([1, 2, 3] ++ [0x6d, 0x00], none))).Version ()
      = some (({ bytes := [] }, some (Error.Errorf
          "u2ftoken: unexpected error %d during version request"
          [256 * (0x6d : Byte).val + (0x00 : Byte).val])), ()) :=
  let h := unexpected_status (NewToken (Device.stub ([1, 2, 3] ++ [0x6d, 0x00], none)))
    { Challenge := List.replicate 32 7, Application := List.replicate 32 9 }
    { Challenge := List.replicate 32 7, Application := List.replicate 32 9,
      KeyHandle := [1, 2] }
    (List.replicate 32 7 ++ List.replicate 32 9 ++ [2] ++ [1, 2]) () () [1, 2, 3] 0x6d 0x00
    (by simp) (by simp) rfl
  ⟨h.1 rfl (by decide) (by decide), h.2.1 rfl (by decide) (by decide),
    h.2.2.1 rfl (by decide) (by decide), h.2.2.2 rfl (by decide)⟩

/-! ## Transport errors and round trips -/

/-- C11: when the transport fails with the error `e`, each of `Message`, `Register`,
`Authenticate`, `CheckAuthenticate` and `Version` (on a request that passes validation)
returns exactly `e` and no result. -/
theorem transport_error_passed_through {σ : Type} (t : Token σ) (req : Request)
    (rreq : RegisterRequest) (areq : AuthenticateRequest) (buf : List Byte) (s s' : σ)
    (data : List Byte) (e : Error)
    (hC : rreq.Challenge.length = 32) (hA : rreq.Application.length = 32)
    (hbuf : encodeAuthenticateRequest areq = (some buf, none)) :
    (t.d.Message (Token.Message.buf req) s = ((data, some e), s') →
      t.Message req s = some ((none, some e), s'))
    ∧ (t.d.Message (Token.Message.buf (Token.Register.request rreq)) s = ((data, some e), s') →
      t.Register rreq s = some ((none, some e), s'))
    ∧ (t.d.Message (Token.Message.buf (Token.Authenticate.request buf)) s
        = ((data, some e), s') →
      t.Authenticate areq s = some ((none, some e), s'))
    ∧ (t.d.Message (Token.Message.buf (Token.CheckAuthenticate.request buf)) s
        = ((data, some e), s') →
      t.CheckAuthenticate areq s = some (some e, s'))
    ∧ (t.d.Message (Token.Message.buf Token.Version.request) s = ((data, some e), s') →
      t.Version s = some (({ bytes := [] }, some e), s')) := by
  refine ⟨?_, ?_, ?_, ?_, ?_⟩
  · exact Message_transport_error t req s s' data e
  · intro h
    have hm := Message_transport_error t _ s s' data e h
    simp [Token.Register, hC, hA, hm]
  · intro h
    have hm := Message_transport_error t _ s s' data e h
    simp [Token.Authenticate, hbuf, hm]
  · intro h
    have hm := Message_transport_error t _ s s' data e h
    simp [Token.CheckAuthenticate, hbuf, hm]
  · intro h
    have hm := Message_transport_error t _ s s' data e h
    simp [Token.Version, hm, string]

theorem transport_error_passed_through_witness :
    (NewToken (Device.stub ([1, 2], some (Error.New "hid: device unplugged")))).Message
        { Command := 3, Param1 := 0, Param2 := 0, Data := [] } ()
      = some ((none, some (Error.New "hid: device unplugged")), ())
    ∧ (NewToken (Device.stub ([1, 2], some (Error.New "hid: device unplugged")))).Register
        { Challenge := List.replicate 32 7, Application := List.replicate 32 9 } ()
      = some ((none, some (Error.New "hid: device unplugged")), ())
    ∧ (NewToken (Device.stub ([1, 2], some (Error.New "hid: device unplugged")))).Authenticate
        { Challenge := List.replicate 32 7, Application := List.replicate 32 9,
          KeyHandle := [1, 2] } ()
      = some ((none, some (Error.New "hid: device unplugged")), ())
    ∧ (NewToken
          (Device.stub ([1, 2], some (Error.New "hid: device unplugged")))).CheckAuthenticate
        { Challenge := List.replicate 32 7, Application := List.replicate 32 9,
          KeyHandle := [1, 2] } ()
      = some (some (Error.New "hid: device unplugged"), ())
    ∧ (NewToken (Device.stub ([1, 2], some (Error.New "hid: device unplugged")))).Version ()
      = some (({ bytes := [] }, some (Error.New "hid: device unplugged")), ()) :=
  let h := transport_error_passed_through
    (NewToken (Device.stub ([1, 2], some (Error.New "hid: device unplugged"))))
    { Command := 3, Param1 := 0, Param2 := 0, Data := [] }
    { Challenge := List.replicate 32 7, Application := List.replicate 32 9 }
    { Challenge := List.replicate 32 7, Application := List.replicate 32 9,
      KeyHandle := [1, 2] }
    (List.replicate 32 7 ++ List.replicate 32 9 ++ [2] ++ [1, 2]) () () [1, 2]
    (Error.New "hid: device unplugged") (by simp) (by simp) rfl
  ⟨h.1 rfl, h.2.1 rfl, h.2.2.1 rfl, h.2.2.2.1 rfl, h.2.2.2.2 rfl⟩

/-- C12: one call of `Message`, `Register`, `Authenticate`, `CheckAuthenticate` or
`Version` on a request that passes validation invokes the transport exactly once, whatever
the transport answers: a recording device logs exactly one more frame, and the device
behind it has taken exactly the one step on that frame. -/
theorem transport_invoked_once {σ : Type} (d : Device σ) (req : Request)
    (rreq : RegisterRequest) (areq : AuthenticateRequest) (s : σ) (log : List (List Byte))
    (hC : rreq.Challenge.length = 32) (hA : rreq.Application.length = 32)
    (hC' : areq.Challenge.length = 32) (hA' : areq.Application.length = 32)
    (hK : areq.KeyHandle.length ≤ 256) :
    (∃ r frame, (NewToken d.recording).Message req (s, log)
        = some (r, ((d.Message frame s).2, log ++ [frame])))
    ∧ (∃ r frame, (NewToken d.recording).Register rreq (s, log)
        = some (r, ((d.Message frame s).2, log ++ [frame])))
    ∧ (∃ r frame, (NewToken d.recording).Authenticate areq (s, log)
        = some (r, ((d.Message frame s).2, log ++ [frame])))
    ∧ (∃ r frame, (NewToken d.recording).CheckAuthenticate areq (s, log)
        = some (r, ((d.Message frame s).2, log ++ [frame])))
    ∧ (∃ r frame, (NewToken d.recording).Version (s, log)
        = some (r, ((d.Message frame s).2, log ++ [frame]))) := by
  refine ⟨?_, ?_, ?_, ?_, ?_⟩
  · obtain ⟨r, hr⟩ := Message_total (NewToken d.recording) req (s, log)
    exact ⟨r, _, hr⟩
  · obtain ⟨r, hr⟩ := Register_total (NewToken d.recording) rreq (s, log) hC hA
    exact ⟨r, _, hr⟩
  · obtain ⟨r, hr⟩ := Authenticate_total (NewToken d.recording) areq (s, log) _
      (encode_valid areq hC' hA' hK)
    exact ⟨r, _, hr⟩
  · obtain ⟨r, hr⟩ := CheckAuthenticate_total (NewToken d.recording) areq (s, log) _
      (encode_valid areq hC' hA' hK)
    exact ⟨r, _, hr⟩
  · obtain ⟨r, hr⟩ := Version_total (NewToken d.recording) (s, log)
    exact ⟨r, _, hr⟩

theorem transport_invoked_once_witness :
    (∃ r frame, (NewToken (Device.stub ([0x69, 0x85], none)).recording).Message
          { Command := 3, Param1 := 0, Param2 := 0, Data := [] } ((), [])
        = some (r, (((Device.stub ([0x69, 0x85], none)).Message frame ()).2, [] ++ [frame])))
    ∧ (∃ r frame, (NewToken (Device.stub ([0x69, 0x85], none)).recording).Register
          { Challenge := List.replicate 32 7, Application := List.replicate 32 9 } ((), [])
        = some (r, (((Device.stub ([0x69, 0x85], none)).Message frame ()).2, [] ++ [frame])))
    ∧ (∃ r frame, (NewToken (Device.stub ([0x69, 0x85], none)).recording).Authenticate
          { Challenge := List.replicate 32 7, Application := List.replicate 32 9,
            KeyHandle := [1, 2] } ((), [])
        = some (r, (((Device.stub ([0x69, 0x85], none)).Message frame ()).2, [] ++ [frame])))
    ∧ (∃ r frame, (NewToken (Device.stub ([0x69, 0x85], none)).recording).CheckAuthenticate
          { Challenge := List.replicate 32 7, Application := List.replicate 32 9,
            KeyHandle := [1, 2] } ((), [])
        = some (r, (((Device.stub ([0x69, 0x85], none)).Message frame ()).2, [] ++ [frame])))
    ∧ (∃ r frame, (NewToken (Device.stub ([0x69, 0x85], none)).recording).Version ((), [])
        = some (r, (((Device.stub ([0x69, 0x85], none)).Message frame ()).2,
            [] ++ [frame]))) :=
  transport_invoked_once (Device.stub ([0x69, 0x85], none))
    { Command := 3, Param1 := 0, Param2 := 0, Data := [] }
    { Challenge := List.replicate 32 7, Application := List.replicate 32 9 }
    { Challenge := List.replicate 32 7, Application := List.replicate 32 9,
      KeyHandle := [1, 2] }
    () [] (by simp) (by simp) (by simp) (by simp) (by simp)

/-! ## The frames of the operations -/

/-- C13: for a request with a 32-byte challenge and a 32-byte application, the frame
`Register` passes to the transport is the 71 bytes `0x00, 0x01, 0x03, 0x00, 0x00, 0x00,
0x40`, the challenge, the application. -/
theorem Register_frame {σ : Type} (d : Device σ) (req : RegisterRequest) (s : σ)
    (log : List (List Byte))
    (hC : req.Challenge.length = 32) (hA : req.Application.length = 32) :
    ∃ r s', (NewToken d.recording).Register req (s, log)
        = some (r, (s', log ++ [[0x00, 0x01, 0x03, 0x00, 0x00, 0x00, 0x40]
            ++ req.Challenge ++ req.Application]))
      ∧ ([0x00, 0x01, 0x03, 0x00, 0x00, 0x00, 0x40]
            ++ req.Challenge ++ req.Application).length = 71 := by
  obtain ⟨r, hr⟩ := Register_total (NewToken d.recording) req (s, log) hC hA
  have hf : Token.Message.buf (Token.Register.request req)
      = [0x00, 0x01, 0x03, 0x00, 0x00, 0x00, 0x40] ++ req.Challenge ++ req.Application := by
    rw [buf_eq]
    simp only [Token.Register.request, List.length_append, hC, hA]
    rfl
  rw [hf] at hr
  exact ⟨r, _, hr, by simp [hC, hA]⟩

theorem Register_frame_witness :
    ∃ r s', (NewToken (Device.stub ([0x69, 0x85], none)).recording).Register
          { Challenge := List.replicate 32 7, Application := List.replicate 32 9 } ((), [])
        = some (r, (s', [] ++ [[0x00, 0x01, 0x03, 0x00, 0x00, 0x00, 0x40]
            ++ List.replicate 32 7 ++ List.replicate 32 9]))
      ∧ ([0x00, 0x01, 0x03, 0x00, 0x00, 0x00, 0x40]
            ++ List.replicate 32 (7 : Byte) ++ List.replicate 32 (9 : Byte)).length = 71 :=
  Register_frame (Device.stub ([0x69, 0x85], none))
    { Challenge := List.replicate 32 7, Application := List.replicate 32 9 } () []
    (by simp) (by simp)

/-- C14: for a request that passes validation, the frames of `Authenticate` and of
`CheckAuthenticate` have command byte 2 and second parameter byte 0 and are the same in
every byte but the first parameter, which is 3 for `Authenticate` and 7 for
`CheckAuthenticate`; the frame of `Version` is `0x00, 0x03, 0x00, 0x00, 0x00, 0x00, 0x00`. -/
theorem Authenticate_frames {σ : Type} (d : Device σ) (req : AuthenticateRequest) (s : σ)
    (log : List (List Byte))
    (hC : req.Challenge.length = 32) (hA : req.Application.length = 32)
    (hK : req.KeyHandle.length ≤ 256) :
    (∃ tail ra sa rc sc,
        (NewToken d.recording).Authenticate req (s, log)
          = some (ra, (sa, log ++ [0x00 :: 0x02 :: 0x03 :: 0x00 :: tail]))
        ∧ (NewToken d.recording).CheckAuthenticate req (s, log)
          = some (rc, (sc, log ++ [0x00 :: 0x02 :: 0x07 :: 0x00 :: tail])))
    ∧ (∃ r s', (NewToken d.recording).Version (s, log)
          = some (r, (s', log ++ [[0x00, 0x03, 0x00, 0x00, 0x00, 0x00, 0x00]]))) := by
  obtain ⟨ra, ha⟩ := Authenticate_total (NewToken d.recording) req (s, log) _
    (encode_valid req hC hA hK)
  obtain ⟨rc, hc⟩ := CheckAuthenticate_total (NewToken d.recording) req (s, log) _
    (encode_valid req hC hA hK)
  obtain ⟨rv, hv⟩ := Version_total (NewToken d.recording) (s, log)
  rw [buf_eq] at ha hc hv
  exact ⟨⟨_, ra, _, rc, _, ha, hc⟩, ⟨rv, _, hv⟩⟩

theorem Authenticate_frames_witness :
    (∃ tail ra sa rc sc,
        (NewToken (Device.stub ([0x69, 0x85], none)).recording).Authenticate
            { Challenge := List.replicate 32 7, Application := List.replicate 32 9,
              KeyHandle := [1, 2] } ((), [])
          = some (ra, (sa, [] ++ [0x00 :: 0x02 :: 0x03 :: 0x00 :: tail]))
        ∧ (NewToken (Device.stub ([0x69, 0x85], none)).recording).CheckAuthenticate
            { Challenge := List.replicate 32 7, Application := List.replicate 32 9,
              KeyHandle := [1, 2] } ((), [])
          = some (rc, (sc, [] ++ [0x00 :: 0x02 :: 0x07 :: 0x00 :: tail])))
    ∧ (∃ r s', (NewToken (Device.stub ([0x69, 0x85], none)).recording).Version ((), [])
          = some (r, (s', [] ++ [[0x00, 0x03, 0x00, 0x00, 0x00, 0x00, 0x00]]))) :=
  Authenticate_frames (Device.stub ([0x69, 0x85], none))
    { Challenge := List.replicate 32 7, Application := List.replicate 32 9,
      KeyHandle := [1, 2] } () [] (by simp) (by simp) (by simp)

set_option maxRecDepth 8192 in
/-- C15 fails at a key handle of 256 bytes, which passes validation: the payload built by
`encodeAuthenticateRequest` carries the length byte `0` at offset 64, followed by the 256
bytes of the key handle, and `Authenticate` sends it in a frame (payload length
`0x000141`). -/
theorem encode_key_handle_256 :
    ∃ payload,
      encodeAuthenticateRequest
          { Challenge := List.replicate 32 7, Application := List.replicate 32 9,
            KeyHandle := List.replicate 256 1 }
        = (some payload, none)
      ∧ payload[64]? = some 0
      ∧ payload.drop 65 = List.replicate 256 1
      ∧ (payload.drop 65).length = 256
      ∧ (NewToken (Device.stub ([0x69, 0x85], none)).recording).Authenticate
          { Challenge := List.replicate 32 7, Application := List.replicate 32 9,
            KeyHandle := List.replicate 256 1 } ((), [])
        = some ((none, some ErrPresenceRequired),
            ((), [[0x00, 0x02, 0x03, 0x00, 0x00, 0x01, 0x41] ++ payload])) :=
  ⟨List.replicate 32 7 ++ List.replicate 32 9 ++ [0] ++ List.replicate 256 1,
    rfl, rfl, rfl, rfl, rfl⟩

/-- C16: for every command, parameters and payload of at most `2^24 - 1` bytes, reading
the frame that `Message` sends as `[class, cmd, p1, p2, len3, payload]` gives class 0, the
same command and parameters, the payload length, the payload itself, and no byte left
over. -/
theorem frame_round_trip {σ : Type} (d : Device σ) (req : Request) (s : σ)
    (log : List (List Byte)) (h : req.Data.length ≤ 2 ^ 24 - 1) :
    ∃ r s' frame,
      (NewToken d.recording).Message req (s, log) = some (r, (s', log ++ [frame]))
      ∧ parseFrame frame
        = some { cls := 0, cmd := req.Command, p1 := req.Param1, p2 := req.Param2,
                 len := req.Data.length, payload := req.Data, rest := [] } := by
  obtain ⟨r, s', hr⟩ := Message_recording d req s log
  refine ⟨r, s', _, hr, ?_⟩
  rw [buf_eq]
  simp [parseFrame, length_field _ h]

theorem frame_round_trip_witness :
    ∃ r s' frame,
      (NewToken (Device.stub ([0x90, 0x00], none)).recording).Message
          { Command := 2, Param1 := 3, Param2 := 0, Data := [5] } ((), [])
        = some (r, (s', [] ++ [frame]))
      ∧ parseFrame frame
        = some { cls := 0, cmd := 2, p1 := 3, p2 := 0, len := ([5] : List Byte).length,
                 payload := [5], rest := [] } :=
  frame_round_trip (Device.stub ([0x90, 0x00], none))
    { Command := 2, Param1 := 3, Param2 := 0, Data := [5] } () [] (by decide)

/-- C17 fails on the reply `0x6a 0x80`: for a request that passes validation
`Authenticate` returns the error built by `fmt.Errorf` for an unexpected status, which is
not `ErrUnknownKeyHandle`, where `CheckAuthenticate` returns `ErrUnknownKeyHandle`. -/
theorem Authenticate_wrong_data :
    (NewToken (Device.stub ([0x6a, 0x80], none))).Authenticate
        { Challenge := List.replicate 32 7, Application := List.replicate 32 9,
          KeyHandle := [1, 2] } ()
      = some ((none, some (Error.Errorf "u2ftoken: unexpected error %d during authentication"
          [0x6a80])), ())
    ∧ Error.Errorf "u2ftoken: unexpected error %d during authentication" [0x6a80]
      ≠ ErrUnknownKeyHandle
    ∧ (NewToken (Device.stub ([0x6a, 0x80], none))).CheckAuthenticate
        { Challenge := List.replicate 32 7, Application := List.replicate 32 9,
          KeyHandle := [1, 2] } ()
      = some (some ErrUnknownKeyHandle, ()) :=
  ⟨rfl, by simp [ErrUnknownKeyHandle], rfl⟩

/-! ## The length field and the authentication response -/

/-- C18, as the claim states it, fails: `Message` sends a payload of `2^24` bytes in a
frame whose three length bytes are all zero. -/
theorem Message_oversized_payload :
    ∃ r s',
      (NewToken (Device.stub ([0x90, 0x00], none)).recording).Message
          { Command := 1, Param1 := 0, Param2 := 0, Data := List.replicate (2 ^ 24) 0 } ((), [])
        = some (r, (s', [] ++ [[0x00, 0x01, 0x00, 0x00, 0x00, 0x00, 0x00]
            ++ List.replicate (2 ^ 24) 0]))
      ∧ (List.replicate (2 ^ 24) (0 : Byte)).length = 16777216
      ∧ 2 ^ 24 - 1 < 16777216 := by
  obtain ⟨r, s', hr⟩ := Message_recording (Device.stub ([0x90, 0x00], none))
    { Command := 1, Param1 := 0, Param2 := 0, Data := List.replicate (2 ^ 24) 0 } () []
  rw [buf_oversized 1 0 0 _ (List.length_replicate _ _)] at hr
  exact ⟨r, s', hr, by rw [List.length_replicate]; norm_num, by norm_num⟩

/-- C18, amended: for every request given to `Message` whose payload has at most
`2^24 - 1` bytes, the frame passed to the transport carries that payload, and its
three-byte big-endian length field equals the number of payload bytes that follow it. -/
theorem Message_length_field {σ : Type} (d : Device σ) (req : Request) (s : σ)
    (log : List (List Byte)) (h : req.Data.length ≤ 2 ^ 24 - 1) :
    ∃ r s' l2 l1 l0 payload,
      (NewToken d.recording).Message req (s, log)
        = some (r, (s', log ++ [0x00 :: req.Command :: req.Param1 :: req.Param2
            :: l2 :: l1 :: l0 :: payload]))
      ∧ payload = req.Data
      ∧ payload.length ≤ 2 ^ 24 - 1
      ∧ 65536 * l2.val + 256 * l1.val + l0.val = payload.length := by
  obtain ⟨r, s', hr⟩ := Message_recording d req s log
  rw [buf_eq] at hr
  exact ⟨r, s', _, _, _, _, hr, rfl, h, length_field _ h⟩

theorem Message_length_field_witness :
    ∃ r s' l2 l1 l0 payload,
      (NewToken (Device.stub ([0x90, 0x00], none)).recording).Message
          { Command := 1, Param1 := 3, Param2 := 0, Data := [5, 6] } ((), [])
        = some (r, (s', [] ++ [0x00 :: 1 :: 3 :: 0 :: l2 :: l1 :: l0 :: payload]))
      ∧ payload = [5, 6]
      ∧ payload.length ≤ 2 ^ 24 - 1
      ∧ 65536 * l2.val + 256 * l1.val + l0.val = payload.length :=
  Message_length_field (Device.stub ([0x90, 0x00], none))
    { Command := 1, Param1 := 3, Param2 := 0, Data := [5, 6] } () [] (by decide)

/-- C19: `Authenticate` returns a response exactly when the request passes validation and
the transport replies, without error, with at least six data bytes followed by the status
`0x90 0x00`; a response never comes with an error; on such a reply with fewer than six
data bytes it returns the too-short error and no response; and it never reads out of
range. -/
theorem Authenticate_response_iff {σ : Type} (t : Token σ) (req : AuthenticateRequest)
    (s : σ) :
    ((∃ resp s', t.Authenticate req s = some ((some resp, none), s'))
      ↔ (req.Challenge.length = 32 ∧ req.Application.length = 32
          ∧ req.KeyHandle.length ≤ 256
          ∧ ∃ buf D s', encodeAuthenticateRequest req = (some buf, none)
              ∧ t.d.Message (Token.Message.buf (Token.Authenticate.request buf)) s
                = ((D ++ [0x90, 0x00], none), s')
              ∧ 6 ≤ D.length))
    ∧ (∀ resp e s', t.Authenticate req s = some ((some resp, e), s') → e = none)
    ∧ (∀ buf D s', encodeAuthenticateRequest req = (some buf, none) →
        t.d.Message (Token.Message.buf (Token.Authenticate.request buf)) s
          = ((D ++ [0x90, 0x00], none), s') →
        D.length < 6 →
        t.Authenticate req s = some ((none, some (Error.Errorf
          "u2ftoken: authenticate response is too short, got %d bytes" [D.length])), s'))
    ∧ t.Authenticate req s ≠ none := by
  refine ⟨⟨?_, ?_⟩, ?_, ?_, Authenticate_no_panic t req s⟩
  · rintro ⟨resp, s', h⟩
    obtain ⟨buf, p, c0, c1, c2, c3, sg, sig, henc, hd, -, -⟩ :=
      Authenticate_response_inv t req s s' resp none h
    obtain ⟨hC, hA, hK⟩ := encode_some_valid req buf henc
    exact ⟨hC, hA, hK, buf, _, s', henc, hd, by simp⟩
  · rintro ⟨-, -, -, buf, D, s', henc, hd, hlen⟩
    have hlen' : ¬ D.length < 6 := by omega
    obtain ⟨counter, signature, hc, hs⟩ := read_in_range D hlen'
    rw [Authenticate_reply_ok t req buf s s' D henc hd, hc, hs]
    exact ⟨{ Counter := counter, Signature := signature, RawResponse := D }, s',
      by simp only [hlen', if_false]⟩
  · intro resp e s' h
    obtain ⟨_, _, _, _, _, _, _, _, -, -, -, he⟩ := Authenticate_response_inv t req s s' resp e h
    exact he
  · intro buf D s' henc hd hlen
    rw [Authenticate_reply_ok t req buf s s' D henc hd]
    simp only [hlen, if_true]

theorem Authenticate_response_iff_witness :
    (NewToken (Device.stub ([0, 0, 0, 0, 5] ++ [0x90, 0x00], none))).Authenticate
        { Challenge := List.replicate 32 7, Application := List.replicate 32 9,
          KeyHandle := [1, 2] } ()
      = some ((none, some (Error.Errorf
          "u2ftoken: authenticate response is too short, got %d bytes"
          [([0, 0, 0, 0, 5] : List Byte).length])), ()) :=
  (Authenticate_response_iff (NewToken (Device.stub ([0, 0, 0, 0, 5] ++ [0x90, 0x00], none)))
    { Challenge := List.replicate 32 7, Application := List.replicate 32 9,
      KeyHandle := [1, 2] } ()).2.2.1
    (List.replicate 32 7 ++ List.replicate 32 9 ++ [2] ++ [1, 2]) [0, 0, 0, 0, 5] ()
    rfl rfl (by decide)

/-- C20: every response that `Authenticate` returns has a non-empty `Signature`, a
`RawResponse` of `5 + len(Signature)` bytes that is its own first byte followed by the
four big-endian bytes of `Counter` and by `Signature`, and `RawResponse` followed by
`0x90 0x00` is the reply the transport returned. -/
theorem Authenticate_response_well_formed {σ : Type} (t : Token σ)
    (req : AuthenticateRequest) (s s' : σ) (resp : AuthenticateResponse) (e : Option Error)
    (h : t.Authenticate req s = some ((some resp, e), s')) :
    resp.Signature ≠ []
    ∧ resp.RawResponse.length = 5 + resp.Signature.length
    ∧ (∃ p, resp.RawResponse.head? = some p
        ∧ resp.RawResponse = BigEndian.AppendUint32 [p] resp.Counter ++ resp.Signature)
    ∧ (∃ buf, encodeAuthenticateRequest req = (some buf, none)
        ∧ t.d.Message (Token.Message.buf (Token.Authenticate.request buf)) s
          = ((resp.RawResponse ++ [0x90, 0x00], none), s')) := by
  obtain ⟨buf, p, c0, c1, c2, c3, sg, sig, henc, hd, hresp, -⟩ :=
    Authenticate_response_inv t req s s' resp e h
  subst hresp
  refine ⟨by simp, by simp; omega, ⟨p, rfl, ?_⟩, ⟨buf, henc, hd⟩⟩
  simp only [AppendUint32_eq]
  rfl

theorem Authenticate_response_well_formed_witness :
    ([0xAA, 0xBB, 0xCC, 0xDD] : List Byte) ≠ []
    ∧ ([0x00, 0, 0, 0, 5, 0xAA, 0xBB, 0xCC, 0xDD] : List Byte).length
        = 5 + ([0xAA, 0xBB, 0xCC, 0xDD] : List Byte).length
    ∧ (∃ p, ([0x00, 0, 0, 0, 5, 0xAA, 0xBB, 0xCC, 0xDD] : List Byte).head? = some p
        ∧ [0x00, 0, 0, 0, 5, 0xAA, 0xBB, 0xCC, 0xDD]
          = BigEndian.AppendUint32 [p] 5 ++ [0xAA, 0xBB, 0xCC, 0xDD])
    ∧ (∃ buf, encodeAuthenticateRequest
            { Challenge := List.replicate 32 7, Application := List.replicate 32 9,
              KeyHandle := [1, 2] }
          = (some buf, none)
        ∧ (NewToken (Device.stub
              ([0x00, 0, 0, 0, 5, 0xAA, 0xBB, 0xCC, 0xDD] ++ [0x90, 0x00], none))).d.Message
            (Token.Message.buf (Token.Authenticate.request buf)) ()
          = (([0x00, 0, 0, 0, 5, 0xAA, 0xBB, 0xCC, 0xDD] ++ [0x90, 0x00], none), ())) :=
  Authenticate_response_well_formed
    (NewToken (Device.stub
      ([0x00, 0, 0, 0, 5, 0xAA, 0xBB, 0xCC, 0xDD] ++ [0x90, 0x00], none)))
    { Challenge := List.replicate 32 7, Application := List.replicate 32 9,
      KeyHandle := [1, 2] } () ()
    { Counter := 5, Signature := [0xAA, 0xBB, 0xCC, 0xDD],
      RawResponse := [0x00, 0, 0, 0, 5, 0xAA, 0xBB, 0xCC, 0xDD] } none rfl

end u2ftoken
